import Mathlib

/-!
  # Verification of the vortex SDK retry executor

  Shallow embedding of the retry/backoff execution wrapper of the vortex
  python SDK:

  * `VortexClient._execute_with_retry` (vortex_sdk/client.py, lines 120-161),
  * `AsyncVortexClient._execute_with_retry_async` (client.py, lines 520-561),
  * the `retryable_status_codes` coalescing in both constructors
    (client.py, lines 66-69 and 472-475),
  * `VortexApiError.__str__` together with the field extraction performed by
    the `VortexApiError` constructor when built from a gRPC error
    (vortex_sdk/exceptions.py, lines 19-54).

  Modelling conventions:

  * Millisecond durations and the backoff multiplier are modelled with exact
    rational arithmetic (`ℚ`) in place of python float/int arithmetic.
  * One attempt of the wrapped gRPC call is modelled by its observable
    outcome: it returns a value, raises a gRPC error exposing a status code
    and a details string (python `grpc.RpcError` / `grpc.aio.AioRpcError`
    with callable `code` and `details` accessors), or raises some other,
    unclassified exception carrying only its textual rendering.
  * The jitter source `random.uniform(-0.1, 0.1)` is modelled as an ambient
    sequence of draws, indexed by the attempt after which the sleep occurs.
  * An execution is summarised by an `ExecTrace`: the final outcome, the
    number of invocations of the call, the list of sleep durations in
    seconds handed to `time.sleep` / `asyncio.sleep`, and a flag recording
    whether the code after the `for` loop was reached.
-/

namespace VortexSdk

/-- The status codes of `grpc.StatusCode`, used by the executor only for
membership tests against `retryable_status_codes` and for rendering the
`status_code` field of `VortexApiError`. -/
inductive StatusCode where
  | OK
  | CANCELLED
  | UNKNOWN
  | INVALID_ARGUMENT
  | DEADLINE_EXCEEDED
  | NOT_FOUND
  | ALREADY_EXISTS
  | PERMISSION_DENIED
  | RESOURCE_EXHAUSTED
  | FAILED_PRECONDITION
  | ABORTED
  | OUT_OF_RANGE
  | UNIMPLEMENTED
  | INTERNAL
  | UNAVAILABLE
  | DATA_LOSS
  | UNAUTHENTICATED
  deriving DecidableEq, Repr

/-- The `name` attribute of a `grpc.StatusCode` enum member, as read by the
`VortexApiError` constructor (exceptions.py, line 31). -/
def StatusCode.name : StatusCode → String
  | .OK => "OK"
  | .CANCELLED => "CANCELLED"
  | .UNKNOWN => "UNKNOWN"
  | .INVALID_ARGUMENT => "INVALID_ARGUMENT"
  | .DEADLINE_EXCEEDED => "DEADLINE_EXCEEDED"
  | .NOT_FOUND => "NOT_FOUND"
  | .ALREADY_EXISTS => "ALREADY_EXISTS"
  | .PERMISSION_DENIED => "PERMISSION_DENIED"
  | .RESOURCE_EXHAUSTED => "RESOURCE_EXHAUSTED"
  | .FAILED_PRECONDITION => "FAILED_PRECONDITION"
  | .ABORTED => "ABORTED"
  | .OUT_OF_RANGE => "OUT_OF_RANGE"
  | .UNIMPLEMENTED => "UNIMPLEMENTED"
  | .INTERNAL => "INTERNAL"
  | .UNAVAILABLE => "UNAVAILABLE"
  | .DATA_LOSS => "DATA_LOSS"
  | .UNAUTHENTICATED => "UNAUTHENTICATED"

/-- Observable outcome of one attempt of the wrapped gRPC call: a returned
value, a raised gRPC error (with its status code and details string), or a
raised unclassified exception (with its textual rendering). -/
inductive AttemptOutcome (α : Type) where
  | success (value : α)
  | rpcError (code : StatusCode) (details : String)
  | otherError (message : String)
  deriving DecidableEq, Repr

/-- Final outcome of the executor: a returned value, a raised
`VortexApiError` built as `VortexApiError(message, grpc_error=e)` where `e`
had status code `code` and details `details`, or a raised plain
`VortexException` carrying `message`. -/
inductive ExecResult (α : Type) where
  | ok (value : α)
  | apiError (message : String) (code : StatusCode) (details : String)
  | unexpected (message : String)
  deriving DecidableEq, Repr

/-- Summary of one execution of the executor: the final outcome, how many
times the wrapped call was invoked, the sleep durations (in seconds) handed
to the sleep primitive in order, and whether control reached the code after
the `for` loop (client.py, lines 158-161). -/
structure ExecTrace (α : Type) where
  result : ExecResult α
  calls : ℕ
  sleeps : List ℚ
  postLoop : Bool
  deriving DecidableEq, Repr

/-- The retry configuration fields of `VortexClient` / `AsyncVortexClient`
that the executor reads (client.py, lines 60-69). -/
structure RetryPolicy where
  retries_enabled : Bool
  max_retries : ℕ
  initial_backoff_ms : ℚ
  max_backoff_ms : ℚ
  backoff_multiplier : ℚ
  retry_jitter : Bool
  retryable_status_codes : List StatusCode
  deriving DecidableEq, Repr

/-- The error message `f"Failed to {operation_name}"` (client.py, lines 128,
152, 552). -/
def failMsg (label : String) : String := "Failed to " ++ label

/-- The error message
`f"An unexpected error occurred during {operation_name}: {e}"` (client.py,
lines 132, 156, 556). -/
def unexpectedMsg (label msg : String) : String :=
  "An unexpected error occurred during " ++ label ++ ": " ++ msg

/-- The error message
`f"Failed to {operation_name} after {self.max_retries} retries"` raised
after the loop when a failure was captured (client.py, line 159). -/
def exhaustedMsg (label : String) (maxRetries : ℕ) : String :=
  "Failed to " ++ label ++ " after " ++ toString maxRetries ++ " retries"

/-- The defensive fallback message raised after the loop when no gRPC
exception was captured (client.py, line 161). -/
def noCaptureMsg (label : String) : String :=
  "Failed to " ++ label ++ " after all retries, but no gRPC exception was captured."

/-- The async variant of the defensive fallback message (client.py,
line 561), which differs from the blocking one by a trailing marker. -/
def noCaptureMsgAsync (label : String) : String :=
  "Failed to " ++ label ++ " after all retries, but no gRPC exception was captured (async)."

/-- Rendering of `VortexApiError.__str__` (exceptions.py, lines 48-54) for
an error built with `grpc_error=e`: the constructor stores
`status_code = e.code().name` and `details = e.details()`, and `__str__`
appends each part when the stored field is truthy (a nonempty string). -/
def apiErrorStr (message : String) (code : StatusCode) (details : String) : String :=
  let withCode := if code.name = "" then message
    else message ++ " (Status Code: " ++ code.name ++ ")"
  if details = "" then withCode else withCode ++ " Details: " ++ details

/-- The `for attempt in range(self.max_retries + 1)` loop of
`VortexClient._execute_with_retry` (client.py, lines 134-161), as a
function of the loop state: the current `attempt` index, the number of loop
iterations still available (`max_retries + 1 - attempt` at the start), the
current `current_backoff_ms`, and the captured `last_exception` (its code
and details).  A fuel count of zero corresponds to normal loop exit and
runs the code after the loop (client.py, lines 158-161), flagged by
`postLoop := true`. -/
def retryLoop (p : RetryPolicy) (call : ℕ → AttemptOutcome α) (jitter : ℕ → ℚ)
    (label : String) : ℕ → ℕ → ℚ → Option (StatusCode × String) → ExecTrace α
  | _attempt, 0, _backoff, lastExc =>
    match lastExc with
    | some (c, d) =>
      { result := .apiError (exhaustedMsg label p.max_retries) c d
        calls := 0, sleeps := [], postLoop := true }
    | none =>
      { result := .unexpected (noCaptureMsg label)
        calls := 0, sleeps := [], postLoop := true }
  | attempt, remaining + 1, backoff, _lastExc =>
    match call attempt with
    | .success v => { result := .ok v, calls := 1, sleeps := [], postLoop := false }
    | .rpcError c d =>
      if c ∈ p.retryable_status_codes then
        if attempt < p.max_retries then
          let sleepMs : ℚ := if p.retry_jitter then backoff * (1 + jitter attempt) else backoff
          let rest := retryLoop p call jitter label (attempt + 1) remaining
            (min p.max_backoff_ms (backoff * p.backoff_multiplier)) (some (c, d))
          { result := rest.result, calls := rest.calls + 1
            sleeps := sleepMs / 1000 :: rest.sleeps, postLoop := rest.postLoop }
        else
          { result := .apiError (failMsg label) c d
            calls := 1, sleeps := [], postLoop := false }
      else
        { result := .apiError (failMsg label) c d
          calls := 1, sleeps := [], postLoop := false }
    | .otherError m =>
      { result := .unexpected (unexpectedMsg label m)
        calls := 1, sleeps := [], postLoop := false }

/-- `VortexClient._execute_with_retry` (client.py, lines 120-161).  When
retries are disabled the call is attempted once with the same exception
translation and no sleeping (lines 124-132); otherwise the retry loop runs
with `attempt = 0`, fuel `max_retries + 1`,
`current_backoff_ms = initial_backoff_ms` and no captured exception
(lines 134-161). -/
def executeWithRetry (p : RetryPolicy) (call : ℕ → AttemptOutcome α)
    (jitter : ℕ → ℚ) (label : String) : ExecTrace α :=
  if p.retries_enabled then
    retryLoop p call jitter label 0 (p.max_retries + 1) p.initial_backoff_ms none
  else
    { result :=
        match call 0 with
        | .success v => .ok v
        | .rpcError c d => .apiError (failMsg label) c d
        | .otherError m => .unexpected (unexpectedMsg label m)
      calls := 1, sleeps := [], postLoop := false }

/-- The `for attempt in range(self.max_retries + 1)` loop of
`AsyncVortexClient._execute_with_retry_async` (client.py, lines 534-561),
embedded separately from its blocking twin; `asyncio.sleep` durations are
recorded exactly like `time.sleep` durations.  The only textual difference
to the blocking loop is the fallback message after the loop (line 561). -/
def asyncRetryLoop (p : RetryPolicy) (call : ℕ → AttemptOutcome α) (jitter : ℕ → ℚ)
    (label : String) : ℕ → ℕ → ℚ → Option (StatusCode × String) → ExecTrace α
  | _attempt, 0, _backoff, lastExc =>
    match lastExc with
    | some (c, d) =>
      { result := .apiError (exhaustedMsg label p.max_retries) c d
        calls := 0, sleeps := [], postLoop := true }
    | none =>
      { result := .unexpected (noCaptureMsgAsync label)
        calls := 0, sleeps := [], postLoop := true }
  | attempt, remaining + 1, backoff, _lastExc =>
    match call attempt with
    | .success v => { result := .ok v, calls := 1, sleeps := [], postLoop := false }
    | .rpcError c d =>
      if c ∈ p.retryable_status_codes then
        if attempt < p.max_retries then
          let sleepMs : ℚ := if p.retry_jitter then backoff * (1 + jitter attempt) else backoff
          let rest := asyncRetryLoop p call jitter label (attempt + 1) remaining
            (min p.max_backoff_ms (backoff * p.backoff_multiplier)) (some (c, d))
          { result := rest.result, calls := rest.calls + 1
            sleeps := sleepMs / 1000 :: rest.sleeps, postLoop := rest.postLoop }
        else
          { result := .apiError (failMsg label) c d
            calls := 1, sleeps := [], postLoop := false }
      else
        { result := .apiError (failMsg label) c d
          calls := 1, sleeps := [], postLoop := false }
    | .otherError m =>
      { result := .unexpected (unexpectedMsg label m)
        calls := 1, sleeps := [], postLoop := false }

/-- `AsyncVortexClient._execute_with_retry_async` (client.py,
lines 520-561). -/
def executeWithRetryAsync (p : RetryPolicy) (call : ℕ → AttemptOutcome α)
    (jitter : ℕ → ℚ) (label : String) : ExecTrace α :=
  if p.retries_enabled then
    asyncRetryLoop p call jitter label 0 (p.max_retries + 1) p.initial_backoff_ms none
  else
    { result :=
        match call 0 with
        | .success v => .ok v
        | .rpcError c d => .apiError (failMsg label) c d
        | .otherError m => .unexpected (unexpectedMsg label m)
      calls := 1, sleeps := [], postLoop := false }

/-- The default retryable set used by both constructors (client.py,
lines 66-69 and 472-475). -/
def defaultRetryableStatusCodes : List StatusCode :=
  [.UNAVAILABLE, .RESOURCE_EXHAUSTED]

/-- The assignment
`self.retryable_status_codes = retryable_status_codes or [UNAVAILABLE, RESOURCE_EXHAUSTED]`
in `VortexClient.__init__` (client.py, lines 66-69): `none` models python
`None`, and python `or` yields the default for any falsy left operand,
which for a list argument means `None` or the empty list. -/
def VortexClient.initRetryableStatusCodes :
    Option (List StatusCode) → List StatusCode
  | none => defaultRetryableStatusCodes
  | some l => if l = [] then defaultRetryableStatusCodes else l

/-- The identical assignment in `AsyncVortexClient.__init__` (client.py,
lines 472-475). -/
def AsyncVortexClient.initRetryableStatusCodes :
    Option (List StatusCode) → List StatusCode
  | none => defaultRetryableStatusCodes
  | some l => if l = [] then defaultRetryableStatusCodes else l

/-- The unjittered backoff base: `b` advanced `k` times through
`current_backoff_ms = min(self.max_backoff_ms, current_backoff_ms * self.backoff_multiplier)`
(client.py, line 150). -/
def backoffFrom (p : RetryPolicy) (b : ℚ) : ℕ → ℚ
  | 0 => b
  | k + 1 => min p.max_backoff_ms (backoffFrom p b k * p.backoff_multiplier)

/-- The unjittered backoff base before the sleep that follows attempt `k`,
starting from `initial_backoff_ms`. -/
def backoffBase (p : RetryPolicy) : ℕ → ℚ := backoffFrom p p.initial_backoff_ms

/-- The duration in seconds handed to the sleep primitive after attempt `k`
when the unjittered base is `b`: the base times `(1 + u)` with a fresh draw
`u` when jitter is enabled, divided by `1000` (client.py, lines 144-148). -/
def sleepSeconds (p : RetryPolicy) (jitter : ℕ → ℚ) (b : ℚ) (k : ℕ) : ℚ :=
  (if p.retry_jitter then b * (1 + jitter k) else b) / 1000

/-- Concrete policy of the exhaustion scenario: `max_retries=2`,
`initial_backoff_ms=50`, `backoff_multiplier=2.0`, jitter enabled,
retryable set containing only RESOURCE_EXHAUSTED, default
`max_backoff_ms=5000`. -/
def exhaustPolicy : RetryPolicy :=
  { retries_enabled := true, max_retries := 2, initial_backoff_ms := 50
    max_backoff_ms := 5000, backoff_multiplier := 2, retry_jitter := true
    retryable_status_codes := [.RESOURCE_EXHAUSTED] }

/-- Concrete policy of the backoff-capping scenario: `max_retries=3`,
`initial_backoff_ms=1000`, `max_backoff_ms=2500`, `backoff_multiplier=2.0`,
jitter disabled. -/
def capPolicy : RetryPolicy :=
  { retries_enabled := true, max_retries := 3, initial_backoff_ms := 1000
    max_backoff_ms := 2500, backoff_multiplier := 2, retry_jitter := false
    retryable_status_codes := [.UNAVAILABLE] }

/-- Concrete policy violating the expected `initial_backoff ≤ max_backoff`
invariant: the initial backoff of 2000 ms exceeds the 1000 ms cap. -/
def overInitPolicy : RetryPolicy :=
  { retries_enabled := true, max_retries := 1, initial_backoff_ms := 2000
    max_backoff_ms := 1000, backoff_multiplier := 2, retry_jitter := false
    retryable_status_codes := [.UNAVAILABLE] }

/-- Concrete policy with jitter enabled, with the initial backoff already
at the 1000 ms cap, so that a positive jitter draw pushes the slept delay
above the cap. -/
def jitterExceedPolicy : RetryPolicy :=
  { retries_enabled := true, max_retries := 1, initial_backoff_ms := 1000
    max_backoff_ms := 1000, backoff_multiplier := 2, retry_jitter := true
    retryable_status_codes := [.UNAVAILABLE] }

/-- Concrete policy with one retry allowed and UNAVAILABLE retryable, used
to exhibit the message raised when every attempt fails retryably. -/
def plainRetryPolicy : RetryPolicy :=
  { retries_enabled := true, max_retries := 1, initial_backoff_ms := 100
    max_backoff_ms := 1000, backoff_multiplier := 2, retry_jitter := false
    retryable_status_codes := [.UNAVAILABLE] }

/-- Concrete policy with retries disabled. -/
def disabledPolicy : RetryPolicy :=
  { retries_enabled := false, max_retries := 3, initial_backoff_ms := 200
    max_backoff_ms := 5000, backoff_multiplier := 1.5, retry_jitter := true
    retryable_status_codes := defaultRetryableStatusCodes }

/-- Concrete enabled policy with ample retry budget and the default
retryable set restricted to UNAVAILABLE. -/
def basicEnabledPolicy : RetryPolicy :=
  { retries_enabled := true, max_retries := 5, initial_backoff_ms := 200
    max_backoff_ms := 5000, backoff_multiplier := 1.5, retry_jitter := true
    retryable_status_codes := [.UNAVAILABLE] }

end VortexSdk

namespace VortexSdk

/-- Advancing the stored backoff once and then iterating the advancement
equals iterating it one step longer: the capped-growth recurrence of
client.py line 150 commutes with its own unfolding. -/
theorem backoffFrom_step (p : RetryPolicy) (b : ℚ) :
    ∀ k, backoffFrom p (min p.max_backoff_ms (b * p.backoff_multiplier)) k =
      backoffFrom p b (k + 1)
  | 0 => rfl
  | k + 1 => by
    simp only [backoffFrom, backoffFrom_step p b k]

/-- Invariant lemma: started at any loop state whose fuel matches the
`range(max_retries + 1)` bound, the loop returns or raises inside its body,
so the code after the loop is never reached. -/
theorem retryLoop_postLoop_false (p : RetryPolicy) (call : ℕ → AttemptOutcome α)
    (jitter : ℕ → ℚ) (label : String) :
    ∀ remaining attempt b lastExc, attempt + remaining = p.max_retries + 1 →
      1 ≤ remaining →
      (retryLoop p call jitter label attempt remaining b lastExc).postLoop = false := by
  intro remaining
  induction remaining with
  | zero => intro attempt b lastExc _ h; exact absurd h (by omega)
  | succ r ih =>
    intro attempt b lastExc hinv _
    cases hcall : call attempt with
    | success v => simp [retryLoop, hcall]
    | otherError m => simp [retryLoop, hcall]
    | rpcError c d =>
      by_cases hmem : c ∈ p.retryable_status_codes
      · by_cases hlt : attempt < p.max_retries
        · simp only [retryLoop, hcall, if_pos hmem, if_pos hlt]
          exact ih (attempt + 1) (min p.max_backoff_ms (b * p.backoff_multiplier))
            (some (c, d)) (by omega) (by omega)
        · simp [retryLoop, hcall, hmem, hlt]
      · simp [retryLoop, hcall, hmem]

/-- Invariant lemma: on loop states whose fuel matches the
`range(max_retries + 1)` bound, the async loop and the blocking loop
produce identical traces (their only textual difference sits in the code
after the loop, which such states never reach). -/
theorem asyncRetryLoop_eq_retryLoop (p : RetryPolicy) (call : ℕ → AttemptOutcome α)
    (jitter : ℕ → ℚ) (label : String) :
    ∀ remaining attempt b lastExc, attempt + remaining = p.max_retries + 1 →
      1 ≤ remaining →
      asyncRetryLoop p call jitter label attempt remaining b lastExc =
        retryLoop p call jitter label attempt remaining b lastExc := by
  intro remaining
  induction remaining with
  | zero => intro attempt b lastExc _ h; exact absurd h (by omega)
  | succ r ih =>
    intro attempt b lastExc hinv _
    cases hcall : call attempt with
    | success v => simp [asyncRetryLoop, retryLoop, hcall]
    | otherError m => simp [asyncRetryLoop, retryLoop, hcall]
    | rpcError c d =>
      by_cases hmem : c ∈ p.retryable_status_codes
      · by_cases hlt : attempt < p.max_retries
        · simp only [asyncRetryLoop, retryLoop, hcall, if_pos hmem, if_pos hlt]
          rw [ih (attempt + 1) (min p.max_backoff_ms (b * p.backoff_multiplier))
            (some (c, d)) (by omega) (by omega)]
        · simp [asyncRetryLoop, retryLoop, hcall, hmem, hlt]
      · simp [asyncRetryLoop, retryLoop, hcall, hmem]

/-- Invariant lemma: when every attempt up to `max_retries` raises a
retryable classified failure, the loop raises the plain failure message of
client.py line 152 wrapping the final failure, after using all its fuel. -/
theorem retryLoop_all_fail (p : RetryPolicy) (call : ℕ → AttemptOutcome α)
    (jitter : ℕ → ℚ) (label : String) (code : ℕ → StatusCode) (detail : ℕ → String)
    (hc : ∀ k, k ≤ p.max_retries → call k = .rpcError (code k) (detail k))
    (hr : ∀ k, k ≤ p.max_retries → code k ∈ p.retryable_status_codes) :
    ∀ remaining attempt b lastExc, attempt + remaining = p.max_retries + 1 →
      1 ≤ remaining →
      (retryLoop p call jitter label attempt remaining b lastExc).result =
        .apiError (failMsg label) (code p.max_retries) (detail p.max_retries) ∧
      (retryLoop p call jitter label attempt remaining b lastExc).calls = remaining := by
  intro remaining
  induction remaining with
  | zero => intro attempt b lastExc _ h; exact absurd h (by omega)
  | succ r ih =>
    intro attempt b lastExc hinv _
    have hale : attempt ≤ p.max_retries := by omega
    by_cases hlt : attempt < p.max_retries
    · obtain ⟨ih1, ih2⟩ := ih (attempt + 1)
        (min p.max_backoff_ms (b * p.backoff_multiplier))
        (some (code attempt, detail attempt)) (by omega) (by omega)
      constructor
      · simp only [retryLoop, hc attempt hale, if_pos (hr attempt hale), if_pos hlt]
        exact ih1
      · simp only [retryLoop, hc attempt hale, if_pos (hr attempt hale), if_pos hlt]
        rw [ih2]
    · have hattempt : attempt = p.max_retries := by omega
      subst hattempt
      constructor
      · simp [retryLoop, hc _ le_rfl, hr _ le_rfl, hlt]
      · simp only [retryLoop, hc _ le_rfl, if_pos (hr _ le_rfl), if_neg hlt]
        omega

/-- Invariant lemma: whatever the per-attempt outcomes, the sleep durations
of a loop run form an initial segment of the schedule that applies a fresh
jitter factor to the pre-update backoff base and advances that base through
the capped recurrence only. -/
theorem retryLoop_sleeps_schedule (p : RetryPolicy) (call : ℕ → AttemptOutcome α)
    (jitter : ℕ → ℚ) (label : String) :
    ∀ remaining attempt b lastExc, attempt + remaining = p.max_retries + 1 →
      1 ≤ remaining →
      ∃ n, n < remaining ∧
        (retryLoop p call jitter label attempt remaining b lastExc).sleeps =
          (List.range n).map fun i => sleepSeconds p jitter (backoffFrom p b i) (attempt + i) := by
  intro remaining
  induction remaining with
  | zero => intro attempt b lastExc _ h; exact absurd h (by omega)
  | succ r ih =>
    intro attempt b lastExc hinv _
    cases hcall : call attempt with
    | success v => exact ⟨0, by omega, by simp [retryLoop, hcall]⟩
    | otherError m => exact ⟨0, by omega, by simp [retryLoop, hcall]⟩
    | rpcError c d =>
      by_cases hmem : c ∈ p.retryable_status_codes
      · by_cases hlt : attempt < p.max_retries
        · obtain ⟨n, hn, hs⟩ := ih (attempt + 1)
            (min p.max_backoff_ms (b * p.backoff_multiplier)) (some (c, d))
            (by omega) (by omega)
          refine ⟨n + 1, by omega, ?_⟩
          have hhead : (if p.retry_jitter then b * (1 + jitter attempt) else b) / 1000 =
              sleepSeconds p jitter (backoffFrom p b 0) (attempt + 0) := by
            simp [sleepSeconds, backoffFrom]
          have htail : ∀ a : ℕ,
              sleepSeconds p jitter
                (backoffFrom p (min p.max_backoff_ms (b * p.backoff_multiplier)) a)
                (attempt + 1 + a) =
              sleepSeconds p jitter (backoffFrom p b (a + 1)) (attempt + (a + 1)) := by
            intro a
            rw [backoffFrom_step p b a, show attempt + 1 + a = attempt + (a + 1) from by omega]
          simp only [retryLoop, hcall, if_pos hmem, if_pos hlt]
          rw [hs, List.range_succ_eq_map, List.map_cons, List.map_map]
          simp only [Function.comp_def, Nat.succ_eq_add_one, htail, hhead]
        · exact ⟨0, by omega, by simp [retryLoop, hcall, hmem, hlt]⟩
      · exact ⟨0, by omega, by simp [retryLoop, hcall, hmem]⟩

/-- Claim C1, amended: with retries enabled and every attempt up to
`max_retries` raising a retryable classified failure, the executor makes
`max_retries + 1` calls and raises an ApiError wrapping the last captured
failure, but its message is the plain failure message `Failed to` followed
by the operation label, with no retries-exhausted suffix: the suffixed
message of client.py line 159 lives only in the unreachable code after the
loop. -/
theorem retry_exhaustion_wraps_last_failure (p : RetryPolicy)
    (call : ℕ → AttemptOutcome α) (jitter : ℕ → ℚ) (label : String)
    (code : ℕ → StatusCode) (detail : ℕ → String)
    (he : p.retries_enabled = true)
    (hc : ∀ k, k ≤ p.max_retries → call k = .rpcError (code k) (detail k))
    (hr : ∀ k, k ≤ p.max_retries → code k ∈ p.retryable_status_codes) :
    (executeWithRetry p call jitter label).result =
      .apiError (failMsg label) (code p.max_retries) (detail p.max_retries) ∧
    (executeWithRetry p call jitter label).calls = p.max_retries + 1 := by
  unfold executeWithRetry
  rw [if_pos he]
  exact retryLoop_all_fail p call jitter label code detail hc hr
    (p.max_retries + 1) 0 p.initial_backoff_ms none (by omega) (by omega)

/-- Claim C1, witness: a policy with one retry and a call always failing
with retryable UNAVAILABLE yields two invocations and the plain failure
message wrapping the final failure. -/
theorem retry_exhaustion_wraps_last_failure_witness :
    (executeWithRetry (α := ℕ) plainRetryPolicy
      (fun _ => .rpcError .UNAVAILABLE "connection refused") (fun _ => 0) "op").result =
      .apiError (failMsg "op") .UNAVAILABLE "connection refused" ∧
    (executeWithRetry (α := ℕ) plainRetryPolicy
      (fun _ => .rpcError .UNAVAILABLE "connection refused") (fun _ => 0) "op").calls = 2 :=
  retry_exhaustion_wraps_last_failure plainRetryPolicy
    (fun _ => .rpcError .UNAVAILABLE "connection refused") (fun _ => 0) "op"
    (fun _ => .UNAVAILABLE) (fun _ => "connection refused") rfl
    (fun _ _ => rfl)
    (fun _ _ => show StatusCode.UNAVAILABLE ∈ plainRetryPolicy.retryable_status_codes by decide)

/-- Claim C1, counterexample: with `max_retries = 1` and every attempt
failing with retryable UNAVAILABLE, the raised ApiError carries the plain
message, and that message differs from the retries-exhausted message the
claim asserts, refuting the claimed message shape at this input. -/
theorem retry_exhaustion_suffix_refuted :
    (executeWithRetry (α := ℕ) plainRetryPolicy
      (fun _ => .rpcError .UNAVAILABLE "connection refused") (fun _ => 0) "op").result =
      .apiError (failMsg "op") .UNAVAILABLE "connection refused" ∧
    failMsg "op" ≠ exhaustedMsg "op" plainRetryPolicy.max_retries := by
  constructor
  · norm_num [executeWithRetry, retryLoop, plainRetryPolicy]
  · decide

/-- Claim C2: with `max_retries = 2`, an initial backoff of 50 ms, a
multiplier of 2, jitter enabled with the uniform draw fixed at 0.05, the
retryable set containing only RESOURCE_EXHAUSTED and every attempt failing
with RESOURCE_EXHAUSTED, the executor calls three times, sleeps 0.0525 s
and then 0.105 s, and raises an ApiError whose textual rendering is the
failure message followed by the status code name and the details text. -/
theorem retry_exhaustion_concrete :
    executeWithRetry (α := ℕ) exhaustPolicy
      (fun _ => .rpcError .RESOURCE_EXHAUSTED "quota hit") (fun _ => 0.05) "op" =
      { result := .apiError (failMsg "op") .RESOURCE_EXHAUSTED "quota hit"
        calls := 3, sleeps := [0.0525, 0.105], postLoop := false } ∧
    failMsg "op" = "Failed to op" ∧
    apiErrorStr (failMsg "op") .RESOURCE_EXHAUSTED "quota hit" =
      "Failed to op (Status Code: RESOURCE_EXHAUSTED) Details: quota hit" := by
  refine ⟨?_, by decide, by decide⟩
  norm_num [executeWithRetry, retryLoop, exhaustPolicy]

/-- Claim C3: every run with retries enabled sleeps along an initial
segment of the schedule whose entry after attempt `i` is the pre-update
backoff base (advanced through the capped recurrence only) times a fresh
jitter factor; in particular, with an initial backoff of 2000 ms above a
cap of 1000 ms the first sleep is the uncapped 2 s, and at a 1000 ms cap a
positive jitter draw of 0.1 makes the sleep 1.1 s, above the cap. -/
theorem backoff_cap_base_only (p : RetryPolicy) (call : ℕ → AttemptOutcome α)
    (jitter : ℕ → ℚ) (label : String) (he : p.retries_enabled = true) :
    (∃ n, n ≤ p.max_retries ∧
      (executeWithRetry p call jitter label).sleeps =
        (List.range n).map fun i => sleepSeconds p jitter (backoffBase p i) i) ∧
    (executeWithRetry (α := ℕ) overInitPolicy
      (fun _ => .rpcError .UNAVAILABLE "server down") (fun _ => 0) "op").sleeps = [2] ∧
    overInitPolicy.max_backoff_ms < overInitPolicy.initial_backoff_ms ∧
    overInitPolicy.max_backoff_ms / 1000 < 2 ∧
    (executeWithRetry (α := ℕ) jitterExceedPolicy
      (fun _ => .rpcError .UNAVAILABLE "server down") (fun _ => 0.1) "op").sleeps = [1.1] ∧
    jitterExceedPolicy.max_backoff_ms / 1000 < 1.1 := by
  refine ⟨?_, ?_, by norm_num [overInitPolicy], by norm_num [overInitPolicy], ?_,
    by norm_num [jitterExceedPolicy]⟩
  · obtain ⟨n, hn, hs⟩ := retryLoop_sleeps_schedule p call jitter label
      (p.max_retries + 1) 0 p.initial_backoff_ms none (by omega) (by omega)
    refine ⟨n, by omega, ?_⟩
    unfold executeWithRetry
    rw [if_pos he, hs]
    simp [backoffBase]
  · norm_num [executeWithRetry, retryLoop, overInitPolicy]
  · norm_num [executeWithRetry, retryLoop, jitterExceedPolicy]

/-- Claim C3, witness: the uncapped first sleep of 2 s under an initial
backoff above the cap, obtained from the theorem at a concrete policy. -/
theorem backoff_cap_base_only_witness :
    (executeWithRetry (α := ℕ) overInitPolicy
      (fun _ => .rpcError .UNAVAILABLE "server down") (fun _ => 0) "op").sleeps = [2] :=
  (backoff_cap_base_only capPolicy (fun _ => AttemptOutcome.success 0)
    (fun _ => 0) "op" rfl).2.1

/-- Claim C4: with `max_retries = 3`, initial backoff 1000 ms, cap 2500 ms,
multiplier 2, jitter disabled, three retryable failures and then success,
the sleeps are exactly 1 s, 2 s and 2.5 s (the third capped from 4 s), the
call runs four times, and the success value is returned. -/
theorem backoff_capping_concrete (v : ℕ) :
    executeWithRetry capPolicy
      (fun k => if k < 3 then .rpcError .UNAVAILABLE "unavailable" else .success v)
      (fun _ => 0) "op" =
      { result := .ok v, calls := 4, sleeps := [1, 2, 2.5], postLoop := false } := by
  norm_num [executeWithRetry, retryLoop, capPolicy]

/-- Claim C5: with retries disabled the executor invokes the call exactly
once, never sleeps, returns a success value unchanged, turns a classified
failure into an ApiError with the plain failure message, and turns an
unclassified exception into the unexpected-error message. -/
theorem retries_disabled_single_attempt (p : RetryPolicy)
    (call : ℕ → AttemptOutcome α) (jitter : ℕ → ℚ) (label : String)
    (hd : p.retries_enabled = false) :
    (executeWithRetry p call jitter label).calls = 1 ∧
    (executeWithRetry p call jitter label).sleeps = [] ∧
    (∀ v, call 0 = .success v →
      (executeWithRetry p call jitter label).result = .ok v) ∧
    (∀ c d, call 0 = .rpcError c d →
      (executeWithRetry p call jitter label).result = .apiError (failMsg label) c d) ∧
    (∀ m, call 0 = .otherError m →
      (executeWithRetry p call jitter label).result = .unexpected (unexpectedMsg label m)) := by
  unfold executeWithRetry
  rw [if_neg (by simp [hd])]
  refine ⟨rfl, rfl, ?_, ?_, ?_⟩
  · intro v h; simp [h]
  · intro c d h; simp [h]
  · intro m h; simp [h]

/-- Claim C5, witness: a disabled-retries policy with an immediately
successful call gives one invocation, no sleeps and the returned value. -/
theorem retries_disabled_single_attempt_witness :
    (executeWithRetry (α := ℕ) disabledPolicy
      (fun _ => .success 7) (fun _ => 0) "op").calls = 1 ∧
    (executeWithRetry (α := ℕ) disabledPolicy
      (fun _ => .success 7) (fun _ => 0) "op").sleeps = [] ∧
    (executeWithRetry (α := ℕ) disabledPolicy
      (fun _ => .success 7) (fun _ => 0) "op").result = .ok 7 := by
  obtain ⟨h1, h2, h3, -, -⟩ := retries_disabled_single_attempt disabledPolicy
    (fun _ => AttemptOutcome.success 7) (fun _ => 0) "op" rfl
  exact ⟨h1, h2, h3 7 rfl⟩

/-- Claim C6: with retries enabled, a first attempt failing with a
classified code outside the retryable set raises an ApiError immediately,
after exactly one invocation and with no sleep, whatever the remaining
retry budget. -/
theorem non_retryable_short_circuits (p : RetryPolicy)
    (call : ℕ → AttemptOutcome α) (jitter : ℕ → ℚ) (label : String)
    (c : StatusCode) (d : String)
    (he : p.retries_enabled = true) (h0 : call 0 = .rpcError c d)
    (hnr : c ∉ p.retryable_status_codes) :
    executeWithRetry p call jitter label =
      { result := .apiError (failMsg label) c d
        calls := 1, sleeps := [], postLoop := false } := by
  unfold executeWithRetry
  rw [if_pos he]
  simp only [retryLoop, h0, if_neg hnr]

/-- Claim C6, witness: retryable set restricted to UNAVAILABLE and a call
failing with INVALID_ARGUMENT stops after one invocation. -/
theorem non_retryable_short_circuits_witness :
    executeWithRetry (α := ℕ) basicEnabledPolicy
      (fun _ => .rpcError .INVALID_ARGUMENT "bad field") (fun _ => 0) "op" =
      { result := .apiError (failMsg "op") .INVALID_ARGUMENT "bad field"
        calls := 1, sleeps := [], postLoop := false } :=
  non_retryable_short_circuits basicEnabledPolicy
    (fun _ => .rpcError .INVALID_ARGUMENT "bad field") (fun _ => 0) "op"
    .INVALID_ARGUMENT "bad field" rfl rfl (by decide)

/-- Claim C7: with retries enabled, an unclassified exception on the first
attempt yields exactly one invocation, no sleep and the unexpected-error
message, whatever `max_retries`; moreover at any attempt index and any loop
state with fuel left, an unclassified exception ends the loop at once in
the same way, so unclassified exceptions are never retried. -/
theorem unclassified_never_retried (p : RetryPolicy)
    (call : ℕ → AttemptOutcome α) (jitter : ℕ → ℚ) (label : String) (m : String)
    (he : p.retries_enabled = true) (h0 : call 0 = .otherError m) :
    executeWithRetry p call jitter label =
      { result := .unexpected (unexpectedMsg label m)
        calls := 1, sleeps := [], postLoop := false } ∧
    ∀ attempt remaining b lastExc m2, call attempt = .otherError m2 →
      retryLoop p call jitter label attempt (remaining + 1) b lastExc =
        { result := .unexpected (unexpectedMsg label m2)
          calls := 1, sleeps := [], postLoop := false } := by
  constructor
  · unfold executeWithRetry
    rw [if_pos he]
    simp only [retryLoop, h0]
  · intro attempt remaining b lastExc m2 h
    simp only [retryLoop, h]

/-- Claim C7, witness: an enabled policy with ample budget and a call
raising an unclassified error on attempt 0 stops after one invocation. -/
theorem unclassified_never_retried_witness :
    executeWithRetry (α := ℕ) basicEnabledPolicy
      (fun _ => .otherError "TypeError: bad proto") (fun _ => 0) "op" =
      { result := .unexpected (unexpectedMsg "op" "TypeError: bad proto")
        calls := 1, sleeps := [], postLoop := false } :=
  (unclassified_never_retried basicEnabledPolicy
    (fun _ => .otherError "TypeError: bad proto") (fun _ => 0) "op"
    "TypeError: bad proto" rfl rfl).1

/-- Claim C8: for every policy, per-attempt outcome sequence, jitter-draw
sequence and label, the suspending executor produces exactly the same
trace as the blocking executor: same number of invocations, same sleep
durations in the same order, and the same final outcome. -/
theorem sync_async_executors_agree (p : RetryPolicy)
    (call : ℕ → AttemptOutcome α) (jitter : ℕ → ℚ) (label : String) :
    executeWithRetryAsync p call jitter label = executeWithRetry p call jitter label := by
  unfold executeWithRetryAsync executeWithRetry
  by_cases he : p.retries_enabled = true
  · rw [if_pos he, if_pos he]
    exact asyncRetryLoop_eq_retryLoop p call jitter label (p.max_retries + 1) 0
      p.initial_backoff_ms none (by omega) (by omega)
  · rw [if_neg he, if_neg he]

/-- Claim C9: with retries enabled, every execution returns or raises from
inside the loop body, so the code after the loop, including the defensive
no-capture fallback, is unreachable. -/
theorem post_loop_fallback_unreachable (p : RetryPolicy)
    (call : ℕ → AttemptOutcome α) (jitter : ℕ → ℚ) (label : String)
    (he : p.retries_enabled = true) :
    (executeWithRetry p call jitter label).postLoop = false := by
  unfold executeWithRetry
  rw [if_pos he]
  exact retryLoop_postLoop_false p call jitter label (p.max_retries + 1) 0
    p.initial_backoff_ms none (by omega) (by omega)

/-- Claim C9, witness: a concrete always-failing run never reaches the code
after the loop. -/
theorem post_loop_fallback_unreachable_witness :
    (executeWithRetry (α := ℕ) basicEnabledPolicy
      (fun _ => .rpcError .UNAVAILABLE "server down") (fun _ => 0) "op").postLoop = false :=
  post_loop_fallback_unreachable basicEnabledPolicy
    (fun _ => .rpcError .UNAVAILABLE "server down") (fun _ => 0) "op" rfl

/-- Claim C10: both constructors coalesce an explicitly empty
`retryable_status_codes` argument to the default set of UNAVAILABLE and
RESOURCE_EXHAUSTED, so an empty retryable set cannot be configured through
this parameter. -/
theorem empty_retryable_list_coalesces_to_default :
    VortexClient.initRetryableStatusCodes (some []) = defaultRetryableStatusCodes ∧
    AsyncVortexClient.initRetryableStatusCodes (some []) = defaultRetryableStatusCodes ∧
    defaultRetryableStatusCodes = [.UNAVAILABLE, .RESOURCE_EXHAUSTED] ∧
    VortexClient.initRetryableStatusCodes (some []) ≠ [] ∧
    AsyncVortexClient.initRetryableStatusCodes (some []) ≠ [] := by
  decide

end VortexSdk
